import Mathlib

/-
Verification of the signgen repository's heuristic and validation
functions, shallowly embedded in Lean 4. Python floats are modelled as
rationals, Python ints as integers, Python strings as Lean strings
(whose data is a list of characters). Character classification uses
Lean's ASCII Char.isAlphanum as the model of Python's str.isalnum, and
Char.isWhitespace as the model of the characters stripped by str.strip.
-/

namespace SignGen

/-- Record returned by SignGenerator._calculate_font_params
(src/sign_generator.py). The Python dict has keys font_family,
size_multiplier, stroke_offset, cut_depth_multiplier, style. -/
structure FontParams where
  font_family : String
  size_multiplier : ℚ
  stroke_offset : ℚ
  cut_depth_multiplier : ℚ
  style : String
deriving Repr, DecidableEq

/-- SignGenerator._calculate_font_params: band lookup on heaviness
(≤25 Light 0.90, ≤50 Regular 1.00, ≤75 Bold 1.15, else ExtraBold 1.30),
then the fine-tune step adds (heaviness % 25) / 25.0 * 0.05 to the
size multiplier. Python's % on a positive modulus agrees with Int.emod. -/
def calculate_font_params (heaviness : ℤ) (font_family : String) : FontParams :=
  let p : FontParams :=
    if heaviness ≤ 25 then
      { font_family := font_family, size_multiplier := 9/10, stroke_offset := 0,
        cut_depth_multiplier := 1, style := "Light" }
    else if heaviness ≤ 50 then
      { font_family := font_family, size_multiplier := 1, stroke_offset := 0,
        cut_depth_multiplier := 1, style := "Regular" }
    else if heaviness ≤ 75 then
      { font_family := font_family, size_multiplier := 23/20, stroke_offset := 0,
        cut_depth_multiplier := 1, style := "Bold" }
    else
      { font_family := font_family, size_multiplier := 13/10, stroke_offset := 0,
        cut_depth_multiplier := 1, style := "ExtraBold" }
  { p with size_multiplier := p.size_multiplier + ((heaviness % 25 : ℤ) : ℚ) / 25 * (5/100) }

/-- Size multiplier of _calculate_font_params scaled by 1000, as an
integer, for arithmetic reasoning. -/
def size_multiplier_scaled (heaviness : ℤ) : ℤ :=
  (if heaviness ≤ 25 then 900
   else if heaviness ≤ 50 then 1000
   else if heaviness ≤ 75 then 1150
   else 1300) + heaviness % 25 * 2

/-- SignGenerator._get_weight_label: lower-case weight label used in
output file names. -/
def get_weight_label (heaviness : ℤ) : String :=
  if heaviness ≤ 25 then "light"
  else if heaviness ≤ 50 then "regular"
  else if heaviness ≤ 75 then "bold"
  else "extrabold"

/-- Python's str.strip(): remove leading and trailing whitespace from a
list of characters. -/
def py_strip (l : List Char) : List Char :=
  ((l.dropWhile Char.isWhitespace).reverse.dropWhile Char.isWhitespace).reverse

/-- SignValidator's configured ranges (src/validators.py __init__). -/
structure SignValidator where
  width_min : ℚ
  width_max : ℚ
  height_min : ℚ
  height_max : ℚ
  font_size_min : ℚ
  font_size_max : ℚ
  thickness_min : ℚ
  thickness_max : ℚ
deriving Repr, DecidableEq

/-- Default ranges used when SignValidator is built without a config:
width (10, 500), height (5, 200), font size (5, 50), thickness (0.2, 5.0). -/
def default_validator : SignValidator :=
  { width_min := 10, width_max := 500, height_min := 5, height_max := 200,
    font_size_min := 5, font_size_max := 50, thickness_min := 1/5, thickness_max := 5 }

/-- String rendering of a numeric value in user-facing messages. The Python
code uses f-string formats such as {x} or {x:.1f} on floats; this model
renders the exact rational instead. No claim depends on these strings. -/
def qstr (q : ℚ) : String := toString q

/-- Characters above code point 127 that validate_text accepts without a
warning. -/
def special_allowed : List Char := "äöüÄÖÜßéèêëàâçñ".toList

/-- SignValidator.validate_text: empty/whitespace-only text is invalid,
text longer than max_length (100 by default at every call site) is
invalid, and text containing non-ASCII characters outside the allowed set
is valid with a warning message. -/
def validate_text (text : String) (max_length : ℕ) : Bool × Option String :=
  if py_strip text.toList = [] then
    (false, some "Text cannot be empty")
  else if max_length < text.length then
    (false, some ("Text too long (max " ++ toString max_length ++ " characters)"))
  else
    let problematic := (text.toList.filter
      (fun c => decide (127 < c.toNat) && !(special_allowed.contains c))).eraseDups
    if problematic = [] then (true, none)
    else (true, some ("Warning: Special characters may not render correctly: " ++
      String.intercalate ", " (problematic.map toString)))

/-- SignValidator.validate_dimensions: range checks on width and height
plus an aspect-ratio check (ratio above 20 or below 0.05 is an error). -/
def validate_dimensions (v : SignValidator) (width height : ℚ) : Bool × Option String :=
  let errors :=
    (if v.width_min ≤ width ∧ width ≤ v.width_max then []
     else ["Width must be between " ++ qstr v.width_min ++ "-" ++ qstr v.width_max ++ "mm"]) ++
    (if v.height_min ≤ height ∧ height ≤ v.height_max then []
     else ["Height must be between " ++ qstr v.height_min ++ "-" ++ qstr v.height_max ++ "mm"]) ++
    (if 0 < width ∧ 0 < height then
      (if 20 < width / height ∨ width / height < 1/20 then
        ["Unusual aspect ratio (" ++ qstr (width / height) ++ ":1)"]
       else [])
     else [])
  if errors = [] then (true, none) else (false, some (String.intercalate "; " errors))

/-- SignValidator.validate_font_size: ranges are skipped under auto_size;
otherwise the size must be in range and the estimated text width
(len(text) * font_size * 0.6) must not exceed width * 1.2. -/
def validate_font_size (v : SignValidator) (font_size : ℚ) (text : String)
    (width : ℚ) (auto_size : Bool) : Bool × Option String :=
  if auto_size then (true, none)
  else if ¬(v.font_size_min ≤ font_size ∧ font_size ≤ v.font_size_max) then
    (false, some ("Font size must be between " ++ qstr v.font_size_min ++ "-" ++
      qstr v.font_size_max ++ "mm"))
  else
    let estimated := (text.length : ℚ) * (font_size * (6/10))
    if width * (12/10) < estimated then
      (false, some ("Text likely too wide for sign (estimated " ++ qstr estimated ++
        "mm, sign width " ++ qstr width ++ "mm)"))
    else (true, none)

/-- SignValidator.validate_thickness: both layers in range, and a total
above 10mm is an error. -/
def validate_thickness (v : SignValidator) (bottom top : ℚ) : Bool × Option String :=
  let errors :=
    (if v.thickness_min ≤ bottom ∧ bottom ≤ v.thickness_max then []
     else ["Bottom thickness must be between " ++ qstr v.thickness_min ++ "-" ++
       qstr v.thickness_max ++ "mm"]) ++
    (if v.thickness_min ≤ top ∧ top ≤ v.thickness_max then []
     else ["Top thickness must be between " ++ qstr v.thickness_min ++ "-" ++
       qstr v.thickness_max ++ "mm"]) ++
    (if 10 < bottom + top then
      ["Total thickness " ++ qstr (bottom + top) ++ "mm may be excessive"]
     else [])
  if errors = [] then (true, none) else (false, some (String.intercalate "; " errors))

/-- SignValidator.validate_heaviness: heaviness must be in 0–100; two
heuristic warnings about heavy text on thin top layers. -/
def validate_heaviness (heaviness : ℤ) (font_size top_thickness : ℚ) : Bool × Option String :=
  if ¬(0 ≤ heaviness ∧ heaviness ≤ 100) then
    (false, some "Heaviness must be between 0-100")
  else
    let warnings :=
      (if 75 < heaviness ∧ 20 < font_size ∧ top_thickness < 3/2 then
        ["Heavy text with large font may cut through thin top layer"]
       else []) ++
      (if 90 < heaviness ∧ top_thickness < 2 then
        ["Extra bold text may require thicker top layer"]
       else [])
    if warnings = [] then (true, none) else (true, some (String.intercalate "; " warnings))

/-- Error accumulation step of pre_validate_all: an invalid result
contributes its message to the error list. -/
def error_msgs (r : Bool × Option String) : List String :=
  if r.1 then [] else [r.2.getD "None"]

/-- Warning accumulation step of pre_validate_all: a valid result with a
message contributes it to the warning list. -/
def warning_msgs (r : Bool × Option String) : List String :=
  if r.1 then (match r.2 with | some m => [m] | none => []) else []

/-- SignValidator.pre_validate_all: runs the five component validators,
collecting errors from all of them and warnings from validate_text and
validate_heaviness; valid iff the error list is empty. -/
def pre_validate_all (v : SignValidator) (text : String) (width height font_size : ℚ)
    (heaviness : ℤ) (bottom_thickness top_thickness : ℚ) (auto_size : Bool) :
    Bool × List String × List String :=
  let r_text := validate_text text 100
  let r_dims := validate_dimensions v width height
  let r_font := validate_font_size v font_size text width auto_size
  let r_thick := validate_thickness v bottom_thickness top_thickness
  let r_heavy := validate_heaviness heaviness font_size top_thickness
  let errors := error_msgs r_text ++ error_msgs r_dims ++ error_msgs r_font ++
    error_msgs r_thick ++ error_msgs r_heavy
  let warnings := warning_msgs r_text ++ warning_msgs r_heavy
  (errors.isEmpty, errors, warnings)

/-- Python's round() to an integer: round half to even. -/
def py_round_half_even (q : ℚ) : ℤ :=
  if q - ⌊q⌋ < 1/2 then ⌊q⌋
  else if 1/2 < q - ⌊q⌋ then ⌊q⌋ + 1
  else if ⌊q⌋ % 2 = 0 then ⌊q⌋ else ⌊q⌋ + 1

/-- Python's round(x, 1): one decimal place, half to even. -/
def py_round1 (q : ℚ) : ℚ := (py_round_half_even (q * 10) : ℚ) / 10

/-- Dictionary returned by SignValidator.suggest_parameters. -/
structure SuggestedParams where
  font_size : ℚ
  heaviness : ℤ
  bottom_thickness : ℚ
  top_thickness : ℚ
  auto_size : Bool
deriving Repr, DecidableEq

/-- SignValidator.suggest_parameters: pick a font size from text length
and dimensions, clamp it to the configured font-size range, round to one
decimal, and propose standard heaviness and thicknesses. -/
def suggest_parameters (v : SignValidator) (text : String) (width height : ℚ) :
    SuggestedParams :=
  let text_length : ℕ := text.length
  let suggested_font :=
    if text_length ≤ 5 then min (height * (6/10)) (width / ((text_length : ℚ) * (8/10)))
    else if text_length ≤ 10 then min (height * (5/10)) (width / ((text_length : ℚ) * (7/10)))
    else min (height * (4/10)) (width / ((text_length : ℚ) * (6/10)))
  let suggested_font := max v.font_size_min (min suggested_font v.font_size_max)
  let suggested_top : ℚ := if height * (5/10) < suggested_font then 3/2 else 1
  { font_size := py_round1 suggested_font,
    heaviness := 50,
    bottom_thickness := 1,
    top_thickness := suggested_top,
    auto_size := decide (15 < text_length) }

/-- JSON-like values stored in the ConfigManager's configuration
dictionary (src/config_manager.py). -/
inductive JsonValue where
  | null : JsonValue
  | bool (b : Bool) : JsonValue
  | num (q : ℚ) : JsonValue
  | str (s : String) : JsonValue
  | arr (items : List JsonValue) : JsonValue
  | obj (fields : List (String × JsonValue)) : JsonValue

/-- A Python dictionary with string keys, as an association list with
unique keys in insertion order. -/
abbrev PyDict := List (String × JsonValue)

/-- Python dict lookup d.get(k): first binding of the key, if any. -/
def dict_get (d : PyDict) (k : String) : Option JsonValue :=
  match d with
  | [] => none
  | (k', v) :: rest => if k' = k then some v else dict_get rest k

/-- Python dict assignment d[k] = v: replace the binding when the key is
present, otherwise append it. -/
def dict_set (d : PyDict) (k : String) (v : JsonValue) : PyDict :=
  match d with
  | [] => [(k, v)]
  | (k', v') :: rest => if k' = k then (k, v) :: rest else (k', v') :: dict_set rest k v

/-- Item assignment step of ConfigManager.save_preset: requires the
"presets" entry to be a dict, as Python's self.config["presets"][name] =
settings would raise a TypeError otherwise. -/
def save_preset_core (config : PyDict) (name : String) (settings : JsonValue) :
    Except String PyDict :=
  match dict_get config "presets" with
  | some (JsonValue.obj presets) =>
    Except.ok (dict_set config "presets" (JsonValue.obj (dict_set presets name settings)))
  | _ => Except.error "TypeError: presets entry is not a dict"

/-- ConfigManager.save_preset: ensure the "presets" key exists, then store
the settings under the given name in the in-memory config. The subsequent
save_config() disk write is a side effect not modelled here; load_preset
reads the in-memory config. -/
def save_preset (config : PyDict) (name : String) (settings : JsonValue) :
    Except String PyDict :=
  save_preset_core
    (if (dict_get config "presets").isNone
     then dict_set config "presets" (JsonValue.obj [])
     else config)
    name settings

/-- ConfigManager.load_preset: self.config.get("presets", {}).get(name).
A non-dict "presets" value would raise an AttributeError in Python. -/
def load_preset (config : PyDict) (name : String) : Except String (Option JsonValue) :=
  match dict_get config "presets" with
  | some (JsonValue.obj presets) => Except.ok (dict_get presets name)
  | none => Except.ok none
  | some _ => Except.error "AttributeError: presets entry is not a dict"

/-- The space character, written by code point to keep the source plain. -/
def space_char : Char := Char.ofNat 32

/-- Character-mapping step of SignGenerator._sanitize_filename: keep
alphanumeric characters, spaces, hyphens and underscores, replace
everything else with an underscore. -/
def py_sanitize_chars (l : List Char) : List Char :=
  l.map (fun c =>
    if c.isAlphanum || c = space_char || c = '-' || c = '_' then c else '_')

/-- SignGenerator._sanitize_filename on a list of characters:
safe_chars[:30].strip().replace(' ', '_') or 'sign'. -/
def sanitize_filename_list (l : List Char) : List Char :=
  let stripped := py_strip ((py_sanitize_chars l).take 30)
  let replaced := stripped.map (fun c => if c = space_char then '_' else c)
  if replaced = [] then "sign".toList else replaced

/-- SignGenerator._sanitize_filename on strings. -/
def sanitize_filename (text : String) : String :=
  String.mk (sanitize_filename_list text.toList)

/-- STLExportError (src/exceptions.py): layer, reason, and a list of
human-readable suggestions. -/
structure STLError where
  layer : String
  reason : String
  suggestions : List String

/-- Environment of one _export_single_stl call: what the CAD kernel and
file system do. validGeometry is the outcome of _validate_geometry;
exportRaises is some message when cq.exporters.export raises; fileCreated
and fileSize describe the file the export call leaves behind. -/
structure ExportEnv where
  validGeometry : Bool
  exportRaises : Option String
  fileCreated : Bool
  fileSize : ℕ

/-- Observable outcome of _export_single_stl: the returned value or the
raised STLExportError, and whether a file remains on disk afterwards
(a zero-byte file is unlinked before raising). -/
structure ExportResult where
  result : Except STLError Bool
  fileOnDisk : Bool

/-- SignGenerator._export_single_stl: raise on invalid geometry, on a
failing export call, on a missing output file, or on a zero-byte output
file (which is removed); otherwise return True. -/
def export_single_stl (layer : String) (env : ExportEnv) : ExportResult :=
  if env.validGeometry = false then
    { result := Except.error
        { layer := layer, reason := "Invalid geometry",
          suggestions := ["Check text size", "Reduce heaviness", "Increase layer thickness"] },
      fileOnDisk := false }
  else
    match env.exportRaises with
    | some msg =>
      { result := Except.error
          { layer := layer, reason := msg,
            suggestions := ["Check parameters", "Try simpler text"] },
        fileOnDisk := false }
    | none =>
      if env.fileCreated = false then
        { result := Except.error
            { layer := layer, reason := "File not created",
              suggestions := ["Try different parameters", "Check disk space"] },
          fileOnDisk := false }
      else if env.fileSize = 0 then
        { result := Except.error
            { layer := layer, reason := "Empty file created",
              suggestions := ["Text may have cut through entirely", "Adjust parameters"] },
          fileOnDisk := false }
      else { result := Except.ok true, fileOnDisk := true }

/-- Bool test for a raised STLExportError in an ExportResult. -/
def stl_export_failed (r : ExportResult) : Bool :=
  match r.result with
  | Except.error _ => true
  | Except.ok _ => false

/-- File-name choice of SignGenerator.export_stl for each layer key;
unknown keys are skipped. -/
def layer_filename (safe_name weight_label layer : String) : Option String :=
  if layer = "base" then some (safe_name ++ "_" ++ weight_label ++ "_bottom_black.stl")
  else if layer = "top" then some (safe_name ++ "_" ++ weight_label ++ "_top_yellow.stl")
  else if layer = "combined" then
    some (safe_name ++ "_" ++ weight_label ++ "_combined_preview.stl")
  else none

/-- Export loop of SignGenerator.export_stl: skip None models and unknown
layer keys, abort on the first raised STLExportError, and collect the
paths of successfully exported files in iteration order. -/
def export_stl_loop (output_dir safe_name weight_label : String)
    (env : String → ExportEnv) :
    List (String × Option Unit) → Except STLError (List String)
  | [] => Except.ok []
  | (_, none) :: rest => export_stl_loop output_dir safe_name weight_label env rest
  | (layer, some _) :: rest =>
    match layer_filename safe_name weight_label layer with
    | none => export_stl_loop output_dir safe_name weight_label env rest
    | some filename =>
      match (export_single_stl layer (env layer)).result with
      | Except.error e => Except.error e
      | Except.ok success =>
        match export_stl_loop output_dir safe_name weight_label env rest with
        | Except.error e => Except.error e
        | Except.ok files =>
          Except.ok (if success then (output_dir ++ "/" ++ filename) :: files else files)

/-- SignGenerator.export_stl: weight label from metadata heaviness
(default 50), sanitized base filename, then the per-layer export loop. -/
def export_stl (output_dir : String) (models : List (String × Option Unit))
    (base_filename : String) (metadata_heaviness : Option ℤ)
    (env : String → ExportEnv) : Except STLError (List String) :=
  export_stl_loop output_dir (sanitize_filename base_filename)
    (get_weight_label (metadata_heaviness.getD 50)) env models

/-- File-system state seen by SignGenerator.__init__. -/
structure GeneratorState where
  output_dir_exists : Bool

/-- SignGenerator.__init__ runs output_dir.mkdir(parents=True,
exist_ok=True): afterwards the output directory exists. -/
def generator_init (s : GeneratorState) : GeneratorState :=
  { s with output_dir_exists := true }

/-- Observable outcome of the CLI entry point: exit code and the lines
written to stdout and stderr after the generation attempt. -/
structure CliResult where
  exitCode : ℕ
  stdoutLines : List String
  stderrLines : List String

/-- Python's Path(p).name: the last path component. -/
def path_name (p : String) : String := (p.splitOn "/").getLastD p

/-- The CLI main function (src/cli.py) after argument parsing: on a
successful generate-and-export it prints a summary to stdout and falls
through to exit code 0; on any exception it prints the error to stderr
and calls sys.exit(1). The generation attempt is modelled by its outcome:
the list of created files, or the raised exception's message. -/
def cli_main (gen_result : Except String (List String)) (output_dir : String) : CliResult :=
  match gen_result with
  | Except.ok files =>
    { exitCode := 0,
      stdoutLines :=
        ("\n✅ Successfully generated " ++ toString files.length ++ " files:") ::
          (files.map (fun f => "  - " ++ path_name f) ++
            ["\nFiles saved to: " ++ output_dir]),
      stderrLines := [] }
  | Except.error e =>
    { exitCode := 1,
      stdoutLines := [],
      stderrLines := ["\n❌ Error: " ++ e] }

end SignGen

namespace SignGen

theorem size_multiplier_eq_scaled (heaviness : ℤ) (font_family : String) :
    (calculate_font_params heaviness font_family).size_multiplier =
      (size_multiplier_scaled heaviness : ℚ) / 1000 := by
  unfold calculate_font_params size_multiplier_scaled
  split_ifs <;> push_cast <;> ring

theorem size_multiplier_scaled_mono (h1 h2 : ℤ) (hle : h1 ≤ h2)
    (h0 : 0 ≤ h1) (h100 : h2 ≤ 100)
    (hgood : ¬(h2 % 25 = 0 ∧ h2 - 25 < h1 ∧ h1 < h2)) :
    size_multiplier_scaled h1 ≤ size_multiplier_scaled h2 := by
  unfold size_multiplier_scaled
  split_ifs <;> omega

/-- C1 (amended): the size multiplier returned by _calculate_font_params is
monotone in heaviness on 0–100, except across a boundary where the
fine-tune term (heaviness % 25)/25 resets: whenever h2 is a multiple of 25
and h2 - 25 < h1 < h2, the multiplier drops slightly. Outside these pairs,
h1 ≤ h2 implies size_multiplier h1 ≤ size_multiplier h2. -/
theorem size_multiplier_monotone_off_boundaries
    (h1 h2 : ℤ) (f1 f2 : String) (hle : h1 ≤ h2) (h0 : 0 ≤ h1) (h100 : h2 ≤ 100)
    (hgood : ¬(h2 % 25 = 0 ∧ h2 - 25 < h1 ∧ h1 < h2)) :
    (calculate_font_params h1 f1).size_multiplier ≤
      (calculate_font_params h2 f2).size_multiplier := by
  rw [size_multiplier_eq_scaled, size_multiplier_eq_scaled]
  have hmono := size_multiplier_scaled_mono h1 h2 hle h0 h100 hgood
  have : (size_multiplier_scaled h1 : ℚ) ≤ (size_multiplier_scaled h2 : ℚ) := by
    exact_mod_cast hmono
  linarith

/-- Witness for C1's amended theorem at heaviness 10 ≤ 60. -/
theorem size_multiplier_monotone_off_boundaries_witness :
    (calculate_font_params 10 "Arial").size_multiplier ≤
      (calculate_font_params 60 "Arial").size_multiplier := by
  exact size_multiplier_monotone_off_boundaries 10 60 "Arial" "Arial"
    (by norm_num) (by norm_num) (by norm_num) (by omega)

/-- C1 counterexample: the claim as stated fails at h1 = 24, h2 = 25: both
lie in 0–100 and 24 ≤ 25, but size_multiplier 24 = 0.948 > 0.90 =
size_multiplier 25. -/
theorem size_multiplier_not_monotone_at_25 :
    (0 : ℤ) ≤ 24 ∧ (24 : ℤ) ≤ 25 ∧ (25 : ℤ) ≤ 100 ∧
      ¬((calculate_font_params 24 "Arial").size_multiplier ≤
          (calculate_font_params 25 "Arial").size_multiplier) := by
  refine ⟨by norm_num, by norm_num, by norm_num, ?_⟩
  rw [size_multiplier_eq_scaled, size_multiplier_eq_scaled]
  norm_num [size_multiplier_scaled]

/-- C2: for heaviness in 0–100, the style label of _calculate_font_params
is Light iff heaviness ≤ 25, Regular iff 25 < heaviness ≤ 50, Bold iff
50 < heaviness ≤ 75, and ExtraBold iff heaviness > 75; in particular it is
always one of these four labels. -/
theorem style_label_thresholds (heaviness : ℤ) (font_family : String)
    (h0 : 0 ≤ heaviness) (h100 : heaviness ≤ 100) :
    ((calculate_font_params heaviness font_family).style = "Light" ↔ heaviness ≤ 25) ∧
    ((calculate_font_params heaviness font_family).style = "Regular" ↔
      (25 < heaviness ∧ heaviness ≤ 50)) ∧
    ((calculate_font_params heaviness font_family).style = "Bold" ↔
      (50 < heaviness ∧ heaviness ≤ 75)) ∧
    ((calculate_font_params heaviness font_family).style = "ExtraBold" ↔ 75 < heaviness) ∧
    (calculate_font_params heaviness font_family).style ∈
      ["Light", "Regular", "Bold", "ExtraBold"] := by
  unfold calculate_font_params
  split_ifs with hA hB hC <;> simp <;> omega

/-- Witness for C2 at heaviness 60. -/
theorem style_label_thresholds_witness :
    (calculate_font_params 60 "Arial").style = "Bold" := by
  exact ((style_label_thresholds 60 "Arial" (by norm_num) (by norm_num)).2.2.1).2
    (by norm_num)

/-- C7: suggest_parameters "LABEL" 100 25 on the default-configured
validator returns a font_size within the configured font-size bounds
(it evaluates to 15, between 5 and 50). -/
theorem suggest_parameters_font_size_in_bounds :
    default_validator.font_size_min ≤
        (suggest_parameters default_validator "LABEL" 100 25).font_size ∧
      (suggest_parameters default_validator "LABEL" 100 25).font_size ≤
        default_validator.font_size_max := by
  have hfs : (suggest_parameters default_validator "LABEL" 100 25).font_size = 15 := by
    simp only [suggest_parameters, default_validator, py_round1, py_round_half_even,
      show ("LABEL" : String).length = 5 from rfl]
    norm_num [min_def, max_def]
  constructor <;> rw [hfs] <;> norm_num [default_validator]

/-- C8: validate_text "" is invalid with message "Text cannot be empty",
and validate_text on a 101-character string of letter A is invalid with
message "Text too long (max 100 characters)". -/
theorem validate_text_empty_and_too_long :
    validate_text "" 100 = (false, some "Text cannot be empty") ∧
      validate_text (String.mk (List.replicate 101 'A')) 100 =
        (false, some "Text too long (max 100 characters)") := by
  decide

/-- C9: pre_validate_all "TEST" 100 25 16 50 1.0 1.0 False on the
default-configured validator is valid, with no errors and no warnings. -/
theorem pre_validate_all_defaults_valid :
    pre_validate_all default_validator "TEST" 100 25 16 50 1 1 false =
      (true, [], []) := by
  have h1 : validate_text "TEST" 100 = (true, none) := by decide
  have h2 : validate_dimensions default_validator 100 25 = (true, none) := by
    simp only [validate_dimensions, default_validator]
    norm_num
  have h3 : validate_font_size default_validator 16 "TEST" 100 false = (true, none) := by
    simp only [validate_font_size, default_validator,
      show ("TEST" : String).length = 4 from rfl]
    norm_num
  have h4 : validate_thickness default_validator 1 1 = (true, none) := by
    simp only [validate_thickness, default_validator]
    norm_num
  have h5 : validate_heaviness 50 16 1 = (true, none) := by
    simp only [validate_heaviness]
    norm_num
  simp [pre_validate_all, h1, h2, h3, h4, h5, error_msgs, warning_msgs]

theorem dict_get_dict_set (d : PyDict) (k : String) (v : JsonValue) :
    dict_get (dict_set d k v) k = some v := by
  induction d with
  | nil => simp [dict_get, dict_set]
  | cons hd tl ih =>
    obtain ⟨k', v'⟩ := hd
    by_cases h : k' = k
    · simp [dict_get, dict_set, h]
    · simp [dict_get, dict_set, h, ih]

/-- C3: saving a named preset and then loading it by the same name returns
exactly the saved parameter dictionary. -/
theorem preset_round_trip (config : PyDict) (name : String) (settings : JsonValue)
    (config' : PyDict)
    (hsave : save_preset config name settings = Except.ok config') :
    load_preset config' name = Except.ok (some settings) := by
  unfold save_preset save_preset_core at hsave
  split at hsave
  · injection hsave with h'
    subst h'
    simp [load_preset, dict_get_dict_set]
  · exact absurd hsave (by simp)

/-- Witness for C3: round trip through an initially empty config. -/
theorem preset_round_trip_witness :
    load_preset [("presets", JsonValue.obj [("p1", JsonValue.str "val")])] "p1" =
      Except.ok (some (JsonValue.str "val")) :=
  preset_round_trip [] "p1" (JsonValue.str "val")
    [("presets", JsonValue.obj [("p1", JsonValue.str "val")])] rfl

/-- C4: the CLI exits with code 0 (and writes nothing to stderr) when
generation and export succeed, and exits with code 1 with the error
message on stderr on any generation failure. -/
theorem cli_exit_codes :
    (∀ files output_dir,
      (cli_main (Except.ok files) output_dir).exitCode = 0 ∧
        (cli_main (Except.ok files) output_dir).stderrLines = []) ∧
    (∀ msg output_dir,
      (cli_main (Except.error msg) output_dir).exitCode = 1 ∧
        (cli_main (Except.error msg) output_dir).stderrLines =
          ["\n❌ Error: " ++ msg]) :=
  ⟨fun _ _ => ⟨rfl, rfl⟩, fun _ _ => ⟨rfl, rfl⟩⟩

/-- C5: _export_single_stl raises STLExportError exactly when the export
call fails, no file remains on disk, or the created file was zero bytes;
every raised error carries a non-empty suggestion list, and on success the
function returns True. -/
theorem export_single_stl_error_taxonomy (layer : String) (env : ExportEnv) :
    (match (export_single_stl layer env).result with
      | Except.error e => e.suggestions ≠ []
      | Except.ok b => b = true) ∧
    (stl_export_failed (export_single_stl layer env) = true ↔
      ((env.validGeometry = true ∧ env.exportRaises.isSome = true) ∨
        (export_single_stl layer env).fileOnDisk = false ∨
        (env.validGeometry = true ∧ env.exportRaises = none ∧
          env.fileCreated = true ∧ env.fileSize = 0))) := by
  obtain ⟨vg, er, fc, fs⟩ := env
  cases vg <;> rcases er with _ | msg <;> cases fc <;> cases fs <;>
    simp [export_single_stl, stl_export_failed]

/-- C6: with all three generated models present and every per-layer export
succeeding, export_stl creates exactly the three files
{safe}_{weight}_bottom_black.stl, {safe}_{weight}_top_yellow.stl and
{safe}_{weight}_combined_preview.stl in the output directory, and
SignGenerator.__init__ has created the output directory. -/
theorem export_three_files (output_dir text : String) (metadata_heaviness : Option ℤ)
    (env : String → ExportEnv)
    (hgood : ∀ layer, (env layer).validGeometry = true ∧ (env layer).exportRaises = none ∧
      (env layer).fileCreated = true ∧ (env layer).fileSize ≠ 0)
    (s : GeneratorState) :
    export_stl output_dir [("base", some ()), ("top", some ()), ("combined", some ())]
        text metadata_heaviness env =
      Except.ok
        [output_dir ++ "/" ++ sanitize_filename text ++ "_" ++
           get_weight_label (metadata_heaviness.getD 50) ++ "_bottom_black.stl",
         output_dir ++ "/" ++ sanitize_filename text ++ "_" ++
           get_weight_label (metadata_heaviness.getD 50) ++ "_top_yellow.stl",
         output_dir ++ "/" ++ sanitize_filename text ++ "_" ++
           get_weight_label (metadata_heaviness.getD 50) ++ "_combined_preview.stl"] ∧
    (generator_init s).output_dir_exists = true := by
  obtain ⟨hv1, he1, hf1, hs1⟩ := hgood "base"
  obtain ⟨hv2, he2, hf2, hs2⟩ := hgood "top"
  obtain ⟨hv3, he3, hf3, hs3⟩ := hgood "combined"
  refine ⟨?_, rfl⟩
  have r1 : (export_single_stl "base" (env "base")).result = Except.ok true := by
    simp [export_single_stl, hv1, he1, hf1, hs1]
  have r2 : (export_single_stl "top" (env "top")).result = Except.ok true := by
    simp [export_single_stl, hv2, he2, hf2, hs2]
  have r3 : (export_single_stl "combined" (env "combined")).result = Except.ok true := by
    simp [export_single_stl, hv3, he3, hf3, hs3]
  simp [export_stl, export_stl_loop, layer_filename, r1, r2, r3, String.append_assoc]

/-- Witness for C6 at a concrete generation of "My Sign" with heaviness
50 and an all-good export environment. -/
theorem export_three_files_witness :
    export_stl "output" [("base", some ()), ("top", some ()), ("combined", some ())]
        "My Sign" (some 50) (fun _ => ⟨true, none, true, 1⟩) =
      Except.ok
        ["output" ++ "/" ++ sanitize_filename "My Sign" ++ "_" ++
           get_weight_label ((some (50 : ℤ)).getD 50) ++ "_bottom_black.stl",
         "output" ++ "/" ++ sanitize_filename "My Sign" ++ "_" ++
           get_weight_label ((some (50 : ℤ)).getD 50) ++ "_top_yellow.stl",
         "output" ++ "/" ++ sanitize_filename "My Sign" ++ "_" ++
           get_weight_label ((some (50 : ℤ)).getD 50) ++ "_combined_preview.stl"] ∧
    (generator_init ⟨false⟩).output_dir_exists = true :=
  export_three_files "output" "My Sign" (some 50) (fun _ => ⟨true, none, true, 1⟩)
    (fun _ => ⟨rfl, rfl, rfl, Nat.one_ne_zero⟩) ⟨false⟩

theorem py_strip_length_le (l : List Char) : (py_strip l).length ≤ l.length := by
  simp only [py_strip, List.length_reverse]
  have a : ((l.dropWhile Char.isWhitespace).reverse.dropWhile Char.isWhitespace).length ≤
      (l.dropWhile Char.isWhitespace).reverse.length :=
    (List.dropWhile_suffix _).sublist.length_le
  have b : (l.dropWhile Char.isWhitespace).length ≤ l.length :=
    (List.dropWhile_suffix _).sublist.length_le
  rw [List.length_reverse] at a
  exact le_trans a b

theorem mem_py_strip {c : Char} {l : List Char} (h : c ∈ py_strip l) : c ∈ l := by
  simp only [py_strip, List.mem_reverse] at h
  have h1 : c ∈ (l.dropWhile Char.isWhitespace).reverse :=
    (List.dropWhile_suffix _).sublist.mem h
  rw [List.mem_reverse] at h1
  exact (List.dropWhile_suffix _).sublist.mem h1

theorem sanitize_filename_list_ok (l : List Char) :
    sanitize_filename_list l ≠ [] ∧
    (sanitize_filename_list l).length ≤ 30 ∧
    (sanitize_filename_list l).all
      (fun c => (c.isAlphanum || c = '-' || c = '_') && c != space_char) = true := by
  simp only [sanitize_filename_list]
  by_cases hrep : (py_strip ((py_sanitize_chars l).take 30)).map
      (fun c => if c = space_char then '_' else c) = []
  · rw [if_pos hrep]
    refine ⟨by decide, by decide, by decide⟩
  · rw [if_neg hrep]
    refine ⟨hrep, ?_, ?_⟩
    · rw [List.length_map]
      exact le_trans (py_strip_length_le _) ((py_sanitize_chars l).length_take_le ..)
    · rw [List.all_eq_true]
      intro c hc
      obtain ⟨c0, hc0, rfl⟩ := List.mem_map.mp hc
      have hc2 : c0 ∈ py_sanitize_chars l :=
        (List.take_sublist _ _).mem (mem_py_strip hc0)
      obtain ⟨a, _, ha⟩ := List.mem_map.mp hc2
      by_cases hcond : (a.isAlphanum || a = space_char || a = '-' || a = '_') = true
      · rw [if_pos hcond] at ha
        subst ha
        by_cases hsp : a = space_char
        · rw [if_pos hsp]
          decide
        · rw [if_neg hsp]
          simp only [Bool.and_eq_true, Bool.or_eq_true, decide_eq_true_eq,
            bne_iff_ne, ne_eq] at hcond ⊢
          rcases hcond with ((hal | hspace) | hdash) | hund
          · exact ⟨Or.inl (Or.inl hal), hsp⟩
          · exact absurd hspace hsp
          · exact ⟨Or.inl (Or.inr hdash), hsp⟩
          · exact ⟨Or.inr hund, hsp⟩
      · rw [if_neg hcond] at ha
        subst ha
        decide

/-- C10: for every input string, _sanitize_filename returns a non-empty
string of at most 30 characters containing only alphanumeric characters,
hyphens and underscores (no spaces), and when sanitization leaves nothing
it returns "sign". -/
theorem sanitize_filename_ok (text : String) :
    sanitize_filename text ≠ "" ∧
    (sanitize_filename text).length ≤ 30 ∧
    (sanitize_filename text).toList.all
      (fun c => (c.isAlphanum || c = '-' || c = '_') && c != space_char) = true ∧
    (py_strip ((py_sanitize_chars text.toList).take 30) = [] →
      sanitize_filename text = "sign") := by
  obtain ⟨h1, h2, h3⟩ := sanitize_filename_list_ok text.toList
  refine ⟨?_, h2, h3, ?_⟩
  · intro h
    exact h1 (congrArg String.data h)
  · intro hstrip
    unfold sanitize_filename sanitize_filename_list
    rw [hstrip]
    rfl

/-- Witness for C10's fallback clause at an all-spaces input. -/
theorem sanitize_filename_ok_witness : sanitize_filename "   " = "sign" :=
  (sanitize_filename_ok "   ").2.2.2 (by decide)

end SignGen
